import Mathlib

/-!
A shallow embedding of the lexer and recursive-descent parser of
src/Parser.py.  The Python classes Lexer and Parser are modelled as pure
functions; the lazy token generator is materialized eagerly into a list
(none of the verified properties depends on the interleaving of lexing
and parsing); Python exceptions become an explicit error type carried in
Except.  Machine-level details are irrelevant here: the only numbers are
the nonnegative integer values of NUMBER tokens, modelled as Nat.

Python attribute accesses on None (e.g. evaluating self.current_token.type
when the token stream is exhausted) raise AttributeError before any other
effect; they are modelled by the Err.attributeError constructor naming the
attribute that was accessed.  The parser dispatches to a method
class_declaration that does not exist on the Parser class; in Python that
is an AttributeError at method lookup, modelled the same way.
-/

namespace MiniLang

/-- Value payload of a token: Python stores either an int (for NUMBER) or a
string (for every other token kind). -/
inductive TokenValue where
  | vNum (n : Nat)
  | vStr (s : String)
deriving DecidableEq, Repr

/-- A token, mirroring class Token of src/Parser.py: a kind string (the
Python code uses plain strings such as "NUMBER", "VAR") and a value. -/
structure Token where
  type : String
  value : TokenValue
deriving DecidableEq, Repr

/-- Errors raised by the Python code.  lexError models
Exception("Illegal character: c"); syntaxError models
SyntaxError("Expected E but got A") raised by Parser.eat; unexpectedToken
models SyntaxError("Unexpected token: T") raised by Parser.primary;
attributeError models AttributeError from an attribute access on None or a
missing method, carrying the attribute name; outOfFuel is an artifact of
the fuelled embedding and is never the value of any canonical run proved
about below. -/
inductive Err where
  | lexError (c : Char)
  | syntaxError (expected actual : String)
  | unexpectedToken (t : String)
  | attributeError (attr : String)
  | outOfFuel
deriving DecidableEq, Repr

/-- Python str.isspace restricted to the characters that can occur in
ASCII source text (space, tab, newline, vertical tab, form feed, carriage
return). -/
def pyIsSpace (c : Char) : Bool :=
  c == ' ' || c == '\t' || c == '\n' || c == '\x0b' || c == '\x0c' || c == '\r'

/-- Python str.isdigit on ASCII characters. -/
def pyIsDigit (c : Char) : Bool := c.isDigit

/-- Python str.isalpha on ASCII characters. -/
def pyIsAlpha (c : Char) : Bool := c.isAlpha

/-- Continuation test of Lexer.generate_identifier: isalnum or underscore. -/
def pyIsIdent (c : Char) : Bool := c.isAlphanum || c == '_'

/-- Python int applied to a nonempty string of ASCII digits, i.e. the
decimal value accumulated by Lexer.generate_number. -/
def digitsToNat (cs : List Char) : Nat :=
  cs.foldl (fun a c => 10 * a + (c.toNat - 48)) 0

/-- Keyword resolution chain at the end of Lexer.generate_identifier: the
accumulated identifier string is compared against each keyword in turn;
"and" and "or" are rewritten to the operator spellings "&&" and "||",
every other keyword keeps the raw lexeme, and anything unmatched becomes
an ID token. -/
def keywordToken (id_str : String) : Token :=
  if id_str = "var" then ⟨"VAR", .vStr id_str⟩
  else if id_str = "function" then ⟨"FUNCTION", .vStr id_str⟩
  else if id_str = "return" then ⟨"RETURN", .vStr id_str⟩
  else if id_str = "if" then ⟨"IF", .vStr id_str⟩
  else if id_str = "else" then ⟨"ELSE", .vStr id_str⟩
  else if id_str = "while" then ⟨"WHILE", .vStr id_str⟩
  else if id_str = "for" then ⟨"FOR", .vStr id_str⟩
  else if id_str = "break" then ⟨"BREAK", .vStr id_str⟩
  else if id_str = "continue" then ⟨"CONTINUE", .vStr id_str⟩
  else if id_str = "class" then ⟨"CLASS", .vStr id_str⟩
  else if id_str = "and" then ⟨"AND", .vStr "&&"⟩
  else if id_str = "or" then ⟨"OR", .vStr "||"⟩
  else ⟨"ID", .vStr id_str⟩

/-- After a two-character-lookahead operator head (=, !, <, >),
Lexer.generate_tokens checks whether the following character is another
equals sign and emits the two-character token, else the one-character
token. -/
def twoCharOp (recur : List Char → Except Err (List Token))
    (two one : Token) (cs : List Char) : Except Err (List Token) :=
  match cs with
  | '=' :: cs2 => (recur cs2).map (two :: ·)
  | _ => (recur cs).map (one :: ·)

/-- The body of the while loop of Lexer.generate_tokens for one current
character c with remaining input cs; recur continues the loop on whatever
input is left.  Branch order follows the Python chain of elif clauses
exactly.

The digit branch embeds Lexer.generate_number (maximal digit run, decimal
value), the letter/underscore branch embeds Lexer.generate_identifier
(maximal alphanumeric/underscore run, then keyword resolution), and the
double-quote branch embeds Lexer.generate_string (characters up to but not
including the next double quote; the advance past the closing quote is a
no-op when the input is already exhausted). -/
def lexStep (recur : List Char → Except Err (List Token))
    (c : Char) (cs : List Char) : Except Err (List Token) :=
  if pyIsSpace c then
    recur cs
  else if pyIsDigit c then
    let ds := (c :: cs).takeWhile pyIsDigit
    let rest := (c :: cs).dropWhile pyIsDigit
    (recur rest).map (⟨"NUMBER", .vNum (digitsToNat ds)⟩ :: ·)
  else if pyIsAlpha c || c == '_' then
    let ids := (c :: cs).takeWhile pyIsIdent
    let rest := (c :: cs).dropWhile pyIsIdent
    (recur rest).map (keywordToken (String.mk ids) :: ·)
  else if c == '"' then
    let strChars := cs.takeWhile (fun a => a != '"')
    let rest := (cs.dropWhile (fun a => a != '"')).tail
    (recur rest).map (⟨"STRING", .vStr (String.mk strChars)⟩ :: ·)
  else if c == '+' then (recur cs).map (⟨"ADD", .vStr "+"⟩ :: ·)
  else if c == '-' then (recur cs).map (⟨"SUB", .vStr "-"⟩ :: ·)
  else if c == '*' then (recur cs).map (⟨"MUL", .vStr "*"⟩ :: ·)
  else if c == '/' then (recur cs).map (⟨"DIV", .vStr "/"⟩ :: ·)
  else if c == '%' then (recur cs).map (⟨"MOD", .vStr "%"⟩ :: ·)
  else if c == '=' then twoCharOp recur ⟨"EQ", .vStr "=="⟩ ⟨"ASSIGN", .vStr "="⟩ cs
  else if c == '!' then twoCharOp recur ⟨"NEQ", .vStr "!="⟩ ⟨"NOT", .vStr "!"⟩ cs
  else if c == '<' then twoCharOp recur ⟨"LTE", .vStr "<="⟩ ⟨"LT", .vStr "<"⟩ cs
  else if c == '>' then twoCharOp recur ⟨"GTE", .vStr ">="⟩ ⟨"GT", .vStr ">"⟩ cs
  else if c == '(' then (recur cs).map (⟨"LPAREN", .vStr "("⟩ :: ·)
  else if c == ')' then (recur cs).map (⟨"RPAREN", .vStr ")"⟩ :: ·)
  else if c == '\x7b' then (recur cs).map (⟨"LBRACE", .vStr "\x7b"⟩ :: ·)
  else if c == '\x7d' then (recur cs).map (⟨"RBRACE", .vStr "\x7d"⟩ :: ·)
  else if c == ';' then (recur cs).map (⟨"SEMICOLON", .vStr ";"⟩ :: ·)
  else if c == ',' then (recur cs).map (⟨"COMMA", .vStr ","⟩ :: ·)
  else .error (.lexError c)

/-- The while self.current_char is not None loop of
Lexer.generate_tokens.  The fuel argument only bounds the number of loop
iterations; every iteration consumes at least one character, so fuel
equal to the input length always suffices (see pyTokenize). -/
def lexLoop : Nat → List Char → Except Err (List Token)
  | _, [] => .ok []
  | 0, _ :: _ => .error .outOfFuel
  | f + 1, c :: cs => lexStep (lexLoop f) c cs

/-- Lexer.generate_tokens run to completion on a character list.  Fuel
equal to the input length is always sufficient because every loop
iteration consumes at least one character. -/
def pyTokenize (cs : List Char) : Except Err (List Token) :=
  lexLoop cs.length cs

/-- Tokenize a whole source string. -/
def tokenize (s : String) : Except Err (List Token) :=
  pyTokenize s.data

/-- The AST node variants of src/Parser.py (ProgramNode,
VariableDeclarationNode, ..., ContinueStatementNode).  Identifier names,
parameter names and literal values are stored exactly as the Python code
stores them: the value attribute of the token they came from.  Binary and
unary operators store the token kind string, as BinaryOpNode and
UnaryOpNode do.  ReturnStatementNode exists in the Python file but no
grammar rule constructs it (declaration has no RETURN branch); it is
included for completeness of the node model. -/
inductive Node where
  | program (declarations : List Node)
  | variableDeclaration (identifier : TokenValue) (value : Option Node)
  | functionDeclaration (identifier : TokenValue) (parameters : List TokenValue)
      (body : List Node)
  | returnStatement (expression : Node)
  | binaryOp (op : String) (left right : Node)
  | unaryOp (op : String) (operand : Node)
  | number (value : TokenValue)
  | string (value : TokenValue)
  | identifier (name : TokenValue)
  | ifStatement (condition : Node) (ifBody elseBody : List Node)
  | whileStatement (condition : Node) (body : List Node)
  | forStatement (init : Option Node) (condition : Node) (update : Option Node)
      (body : List Node)
  | breakStatement
  | continueStatement
deriving Repr

/-- Parser cursor state: the single-token lookahead self.current_token and
the tokens not yet pulled from the generator. -/
structure St where
  current : Option Token
  rest : List Token
deriving Repr

/-- Parser.advance: self.current_token = next(self.lexer, None). -/
def pAdvance (st : St) : St :=
  ⟨st.rest.head?, st.rest.tail⟩

/-- The state at the start of Parser.parse, after the initial advance. -/
def initSt (ts : List Token) : St :=
  pAdvance ⟨none, ts⟩

/-- Parser.eat: if the current token exists and has the expected kind,
advance; otherwise Python executes
raise SyntaxError(f"Expected T but got {self.current_token.type}"), whose
message formatting dereferences self.current_token — a mismatched token
yields the SyntaxError, an absent one raises AttributeError("type") before
the SyntaxError is constructed. -/
def eat (tt : String) (st : St) : Except Err St :=
  match st.current with
  | some tok =>
    if tok.type = tt then .ok (pAdvance st) else .error (.syntaxError tt tok.type)
  | none => .error (.attributeError "type")

/-- Parser.break_statement. -/
def break_statement (st : St) : Except Err (Node × St) := do
  let st1 ← eat "BREAK" st
  let st2 ← eat "SEMICOLON" st1
  .ok (.breakStatement, st2)

/-- Parser.continue_statement. -/
def continue_statement (st : St) : Except Err (Node × St) := do
  let st1 ← eat "CONTINUE" st
  let st2 ← eat "SEMICOLON" st1
  .ok (.continueStatement, st2)

/-- Operator set of the expression_logical loop guard. -/
def inLogicalOps (t : String) : Bool := t == "AND" || t == "OR"

/-- Operator set of the expression_relational loop guard. -/
def inRelationalOps (t : String) : Bool :=
  t == "LT" || t == "LTE" || t == "GT" || t == "GTE" || t == "EQ" || t == "NEQ"

/-- Operator set of the expression_additive loop guard. -/
def inAdditiveOps (t : String) : Bool := t == "ADD" || t == "SUB"

/-- Operator set of the expression_multiplicative loop guard. -/
def inMultiplicativeOps (t : String) : Bool := t == "MUL" || t == "DIV" || t == "MOD"

/-- Operator set of the expression_unary prefix test. -/
def inUnaryOps (t : String) : Bool := t == "ADD" || t == "SUB" || t == "NOT"

mutual

/-- Parser.declaration: dispatch on the current token kind.  Every Python
while-loop guard and attribute access that dereferences
self.current_token is modelled with an explicit none branch raising
AttributeError, exactly as Python would.  The CLASS branch calls
self.class_declaration(), a method that does not exist on the Parser
class, so Python raises AttributeError at the method lookup. -/
def declaration : Nat → St → Except Err (Node × St)
  | 0, _ => .error .outOfFuel
  | f + 1, st =>
    match st.current with
    | none => .error (.attributeError "type")
    | some tok =>
      if tok.type = "VAR" then variable_declaration f st
      else if tok.type = "FUNCTION" then function_declaration f st
      else if tok.type = "CLASS" then .error (.attributeError "class_declaration")
      else if tok.type = "IF" then if_statement f st
      else if tok.type = "WHILE" then while_statement f st
      else if tok.type = "FOR" then for_statement f st
      else if tok.type = "BREAK" then break_statement st
      else if tok.type = "CONTINUE" then continue_statement st
      else expression f st

/-- Parser.variable_declaration: var ID [= expression] ; reading the
identifier value before eating ID, and testing the ASSIGN lookahead, each
dereference self.current_token. -/
def variable_declaration : Nat → St → Except Err (Node × St)
  | 0, _ => .error .outOfFuel
  | f + 1, st => do
    let st1 ← eat "VAR" st
    match st1.current with
    | none => .error (.attributeError "value")
    | some idTok => do
      let st2 ← eat "ID" st1
      match st2.current with
      | none => .error (.attributeError "type")
      | some t2 =>
        if t2.type = "ASSIGN" then do
          let st3 ← eat "ASSIGN" st2
          let (v, st4) ← expression f st3
          let st5 ← eat "SEMICOLON" st4
          .ok (.variableDeclaration idTok.value (some v), st5)
        else do
          let st3 ← eat "SEMICOLON" st2
          .ok (.variableDeclaration idTok.value none, st3)

/-- Parser.function_declaration. -/
def function_declaration : Nat → St → Except Err (Node × St)
  | 0, _ => .error .outOfFuel
  | f + 1, st => do
    let st1 ← eat "FUNCTION" st
    match st1.current with
    | none => .error (.attributeError "value")
    | some idTok => do
      let st2 ← eat "ID" st1
      let st3 ← eat "LPAREN" st2
      let (params, st4) ← parameters f st3
      let st5 ← eat "RPAREN" st4
      let st6 ← eat "LBRACE" st5
      let (body, st7) ← block_loop f [] st6
      let st8 ← eat "RBRACE" st7
      .ok (.functionDeclaration idTok.value params body, st8)

/-- Parser.parameters: empty list if the lookahead is RPAREN, else a
first ID followed by the comma loop. -/
def parameters : Nat → St → Except Err (List TokenValue × St)
  | 0, _ => .error .outOfFuel
  | f + 1, st =>
    match st.current with
    | none => .error (.attributeError "type")
    | some t =>
      if t.type = "RPAREN" then .ok ([], st)
      else do
        let st1 ← eat "ID" st
        parameters_loop f [t.value] st1

/-- The while self.current_token.type == "COMMA" loop of
Parser.parameters. -/
def parameters_loop : Nat → List TokenValue → St → Except Err (List TokenValue × St)
  | 0, _, _ => .error .outOfFuel
  | f + 1, acc, st =>
    match st.current with
    | none => .error (.attributeError "type")
    | some t =>
      if t.type = "COMMA" then do
        let st1 ← eat "COMMA" st
        match st1.current with
        | none => .error (.attributeError "value")
        | some t2 => do
          let st2 ← eat "ID" st1
          parameters_loop f (acc ++ [t2.value]) st2
      else .ok (acc, st)

/-- Parser.expression: delegates to the loosest binding level. -/
def expression : Nat → St → Except Err (Node × St)
  | 0, _ => .error .outOfFuel
  | f + 1, st => expression_logical f st

/-- Parser.expression_logical: one relational operand, then the AND/OR
fold loop. -/
def expression_logical : Nat → St → Except Err (Node × St)
  | 0, _ => .error .outOfFuel
  | f + 1, st => do
    let (node, st1) ← expression_relational f st
    logical_loop f node st1

/-- The while loop of Parser.expression_logical, folding
left-associatively with the previously built node as the left child. -/
def logical_loop : Nat → Node → St → Except Err (Node × St)
  | 0, _, _ => .error .outOfFuel
  | f + 1, node, st =>
    match st.current with
    | none => .error (.attributeError "type")
    | some tok =>
      if inLogicalOps tok.type then do
        let (right, st2) ← expression_relational f (pAdvance st)
        logical_loop f (.binaryOp tok.type node right) st2
      else .ok (node, st)

/-- Parser.expression_relational. -/
def expression_relational : Nat → St → Except Err (Node × St)
  | 0, _ => .error .outOfFuel
  | f + 1, st => do
    let (node, st1) ← expression_additive f st
    relational_loop f node st1

/-- The while loop of Parser.expression_relational. -/
def relational_loop : Nat → Node → St → Except Err (Node × St)
  | 0, _, _ => .error .outOfFuel
  | f + 1, node, st =>
    match st.current with
    | none => .error (.attributeError "type")
    | some tok =>
      if inRelationalOps tok.type then do
        let (right, st2) ← expression_additive f (pAdvance st)
        relational_loop f (.binaryOp tok.type node right) st2
      else .ok (node, st)

/-- Parser.expression_additive. -/
def expression_additive : Nat → St → Except Err (Node × St)
  | 0, _ => .error .outOfFuel
  | f + 1, st => do
    let (node, st1) ← expression_multiplicative f st
    additive_loop f node st1

/-- The while loop of Parser.expression_additive. -/
def additive_loop : Nat → Node → St → Except Err (Node × St)
  | 0, _, _ => .error .outOfFuel
  | f + 1, node, st =>
    match st.current with
    | none => .error (.attributeError "type")
    | some tok =>
      if inAdditiveOps tok.type then do
        let (right, st2) ← expression_multiplicative f (pAdvance st)
        additive_loop f (.binaryOp tok.type node right) st2
      else .ok (node, st)

/-- Parser.expression_multiplicative. -/
def expression_multiplicative : Nat → St → Except Err (Node × St)
  | 0, _ => .error .outOfFuel
  | f + 1, st => do
    let (node, st1) ← expression_unary f st
    multiplicative_loop f node st1

/-- The while loop of Parser.expression_multiplicative. -/
def multiplicative_loop : Nat → Node → St → Except Err (Node × St)
  | 0, _, _ => .error .outOfFuel
  | f + 1, node, st =>
    match st.current with
    | none => .error (.attributeError "type")
    | some tok =>
      if inMultiplicativeOps tok.type then do
        let (right, st2) ← expression_unary f (pAdvance st)
        multiplicative_loop f (.binaryOp tok.type node right) st2
      else .ok (node, st)

/-- Parser.expression_unary: right-recursive prefix operators, else
primary. -/
def expression_unary : Nat → St → Except Err (Node × St)
  | 0, _ => .error .outOfFuel
  | f + 1, st =>
    match st.current with
    | none => .error (.attributeError "type")
    | some tok =>
      if inUnaryOps tok.type then do
        let (operand, st2) ← expression_unary f (pAdvance st)
        .ok (.unaryOp tok.type operand, st2)
      else primary f st

/-- Parser.primary: NUMBER, STRING, ID, parenthesized expression, or
SyntaxError("Unexpected token: T"). -/
def primary : Nat → St → Except Err (Node × St)
  | 0, _ => .error .outOfFuel
  | f + 1, st =>
    match st.current with
    | none => .error (.attributeError "type")
    | some tok =>
      if tok.type = "NUMBER" then do
        let st1 ← eat "NUMBER" st
        .ok (.number tok.value, st1)
      else if tok.type = "STRING" then do
        let st1 ← eat "STRING" st
        .ok (.string tok.value, st1)
      else if tok.type = "ID" then do
        let st1 ← eat "ID" st
        .ok (.identifier tok.value, st1)
      else if tok.type = "LPAREN" then do
        let st1 ← eat "LPAREN" st
        let (e, st2) ← expression f st1
        let st3 ← eat "RPAREN" st2
        .ok (e, st3)
      else .error (.unexpectedToken tok.type)

/-- Parser.if_statement: the ELSE lookahead test after the if-block also
dereferences self.current_token.  else_body stays [] when no else clause
is present, as in the Python code. -/
def if_statement : Nat → St → Except Err (Node × St)
  | 0, _ => .error .outOfFuel
  | f + 1, st => do
    let st1 ← eat "IF" st
    let st2 ← eat "LPAREN" st1
    let (cond, st3) ← expression f st2
    let st4 ← eat "RPAREN" st3
    let st5 ← eat "LBRACE" st4
    let (ifb, st6) ← block_loop f [] st5
    let st7 ← eat "RBRACE" st6
    match st7.current with
    | none => .error (.attributeError "type")
    | some t =>
      if t.type = "ELSE" then do
        let st8 ← eat "ELSE" st7
        let st9 ← eat "LBRACE" st8
        let (eb, st10) ← block_loop f [] st9
        let st11 ← eat "RBRACE" st10
        .ok (.ifStatement cond ifb eb, st11)
      else .ok (.ifStatement cond ifb [], st7)

/-- Parser.while_statement. -/
def while_statement : Nat → St → Except Err (Node × St)
  | 0, _ => .error .outOfFuel
  | f + 1, st => do
    let st1 ← eat "WHILE" st
    let st2 ← eat "LPAREN" st1
    let (cond, st3) ← expression f st2
    let st4 ← eat "RPAREN" st3
    let st5 ← eat "LBRACE" st4
    let (body, st6) ← block_loop f [] st5
    let st7 ← eat "RBRACE" st6
    .ok (.whileStatement cond body, st7)

/-- Parser.for_statement: the init slot is a declaration only when the
lookahead is VAR, the update slot an expression only when the lookahead is
not RPAREN; both lookahead tests dereference self.current_token. -/
def for_statement : Nat → St → Except Err (Node × St)
  | 0, _ => .error .outOfFuel
  | f + 1, st => do
    let st1 ← eat "FOR" st
    let st2 ← eat "LPAREN" st1
    match st2.current with
    | none => .error (.attributeError "type")
    | some t => do
      let (init, st3) ←
        if t.type = "VAR" then do
          let (d, st3a) ← declaration f st2
          pure (some d, st3a)
        else pure (none, st2)
      let (cond, st4) ← expression f st3
      let st5 ← eat "SEMICOLON" st4
      match st5.current with
      | none => .error (.attributeError "type")
      | some t2 => do
        let (update, st6) ←
          if t2.type = "RPAREN" then pure (none, st5)
          else do
            let (e, st6a) ← expression f st5
            pure (some e, st6a)
        let st7 ← eat "RPAREN" st6
        let st8 ← eat "LBRACE" st7
        let (body, st9) ← block_loop f [] st8
        let st10 ← eat "RBRACE" st9
        .ok (.forStatement init cond update body, st10)

/-- The while self.current_token.type != "RBRACE" body loop shared by
function_declaration, if_statement, while_statement and for_statement. -/
def block_loop : Nat → List Node → St → Except Err (List Node × St)
  | 0, _, _ => .error .outOfFuel
  | f + 1, acc, st =>
    match st.current with
    | none => .error (.attributeError "type")
    | some t =>
      if t.type = "RBRACE" then .ok (acc, st)
      else do
        let (d, st1) ← declaration f st
        block_loop f (acc ++ [d]) st1

/-- The while self.current_token is not None loop of Parser.program. -/
def program_loop : Nat → St → Except Err (List Node)
  | 0, _ => .error .outOfFuel
  | f + 1, st =>
    match st.current with
    | none => .ok []
    | some _ => do
      let (d, st1) ← declaration f st
      let ds ← program_loop f st1
      pure (d :: ds)

end

/-- Canonical fuel for a token list: each unit of fuel pays for one call
edge of the recursive descent, and the descent from a statement down to a
primary uses at most eight edges per token consumed, so a generous linear
bound suffices for every input appearing in the theorems below. -/
def parseFuel (ts : List Token) : Nat :=
  10 * ts.length + 10

/-- Parser.parse: advance once, then Parser.program, wrapping the
collected declarations in a ProgramNode. -/
def parseTokens (ts : List Token) : Except Err Node :=
  (program_loop (parseFuel ts) (initSt ts)).map Node.program

/-- End-to-end run: Lexer.generate_tokens materialized, then
Parser.parse. -/
def parseSource (s : String) : Except Err Node := do
  let ts ← tokenize s
  parseTokens ts

/-- Parser.expression run on its own token list, returning the parsed
tree (the remaining state is dropped). -/
def runExpression (ts : List Token) : Except Err Node :=
  (expression (parseFuel ts) (initSt ts)).map Prod.fst

/-! Helper lemmas. -/

/-- The lexer loop returns an empty token list on exhausted input,
whatever fuel remains. -/
theorem lexLoop_nil (f : Nat) : lexLoop f [] = .ok [] := by
  cases f <;> rfl

/-- A digit character is not whitespace, so the digit branch of the lexer
dispatch is reached. -/
theorem digit_not_space {c : Char} (h : pyIsDigit c = true) : pyIsSpace c = false := by
  by_contra hs
  rw [Bool.not_eq_false] at hs
  simp only [pyIsSpace, Bool.or_eq_true, beq_iff_eq] at hs
  rcases hs with ((((rfl | rfl) | rfl) | rfl) | rfl) | rfl <;> exact absurd h (by decide)

/-- One step of the lexer on a digit: the maximal digit run becomes a
single NUMBER token. -/
theorem lexLoop_digit_step (f : Nat) (c : Char) (cs : List Char)
    (hc : pyIsDigit c = true) :
    lexLoop (f + 1) (c :: cs) =
      (lexLoop f ((c :: cs).dropWhile pyIsDigit)).map
        ((⟨"NUMBER", .vNum (digitsToNat ((c :: cs).takeWhile pyIsDigit))⟩ : Token) :: ·) := by
  have h1 : pyIsSpace c = false := digit_not_space hc
  show lexStep (lexLoop f) c cs = _
  unfold lexStep
  rw [h1, hc]
  rfl

/-- One lexer step on whitespace skips the character. -/
theorem lexLoop_space_step (f : Nat) (c : Char) (cs : List Char)
    (hc : pyIsSpace c = true) :
    lexLoop (f + 1) (c :: cs) = lexLoop f cs := by
  show lexStep (lexLoop f) c cs = _
  unfold lexStep
  rw [hc]
  rfl

/-- Lexing a whitespace-only character list yields no tokens, for any
fuel at least the input length. -/
theorem lexLoop_all_space (cs : List Char) :
    ∀ f : Nat, (∀ c ∈ cs, pyIsSpace c = true) → cs.length ≤ f →
      lexLoop f cs = .ok [] := by
  induction cs with
  | nil => intro f _ _; exact lexLoop_nil f
  | cons c t ih =>
    intro f h hf
    cases f with
    | zero => simp at hf
    | succ f =>
      rw [lexLoop_space_step f c t (h c (by simp))]
      exact ih f (fun x hx => h x (by simp [hx])) (by simpa using hf)

/-- The accumulator form of the decimal fold used by
Lexer.generate_number, related to the standard positional interpretation
Nat.ofDigits. -/
theorem foldl_digits_eq (l : List Char) (a : Nat) :
    l.foldl (fun x c => 10 * x + (c.toNat - 48)) a =
      a * 10 ^ l.length + Nat.ofDigits 10 ((l.map fun c => c.toNat - 48)).reverse := by
  induction l generalizing a with
  | nil => simp [Nat.ofDigits]
  | cons c t ih =>
    simp only [List.foldl_cons, List.map_cons, List.reverse_cons, List.length_cons]
    rw [ih, Nat.ofDigits_append]
    simp [Nat.ofDigits]
    ring

/-- The decimal value accumulated by Lexer.generate_number is the
positional base-10 interpretation of the digit string. -/
theorem digitsToNat_eq_ofDigits (cs : List Char) :
    digitsToNat cs = Nat.ofDigits 10 ((cs.map fun c => c.toNat - 48)).reverse := by
  unfold digitsToNat
  rw [foldl_digits_eq]
  simp

/-! Claim theorems. -/

/-- C1 (counterexample): parsing the source
"for (var i = 0; i < 10; i = i + 1) { }" does not return a ForStatement:
the expression grammar has no assignment form, so after the update slot
parses the bare identifier i the parser demands RPAREN and fails with
SyntaxError expected RPAREN, actual ASSIGN. -/
theorem c1_counterexample_for_assignment_update_fails :
    parseSource "for (var i = 0; i < 10; i = i + 1) \x7b \x7d" =
      .error (.syntaxError "RPAREN" "ASSIGN") := rfl

/-- C1 (amended): the claimed source fails with SyntaxError expected
RPAREN, actual ASSIGN (see the counterexample); with the update slot left
empty, "for (var i = 0; i < 10;) { }" produces a ForStatement whose init
is a VariableDeclaration, whose condition is the relational BinaryOp LT,
whose update is absent, and whose body is empty. -/
theorem c1_for_without_update_parses :
    parseSource "for (var i = 0; i < 10;) \x7b \x7d" =
      .ok (.program [.forStatement
        (some (.variableDeclaration (.vStr "i") (some (.number (.vNum 0)))))
        (.binaryOp "LT" (.identifier (.vStr "i")) (.number (.vNum 10)))
        none
        []]) := rfl

/-- C2: whenever eat runs with the current token absent, the Python code
raises AttributeError (the SyntaxError message formatting dereferences
self.current_token.type on None before the SyntaxError is built), not a
SyntaxError carrying "end of input"; the source "break" exhibits the
behavior end to end, since break_statement then demands SEMICOLON on an
exhausted stream. -/
theorem c2_eat_absent_token_attribute_error :
    (∀ (tt : String) (st : St), st.current = none →
      eat tt st = .error (.attributeError "type")) ∧
    parseSource "break" = .error (.attributeError "type") := by
  constructor
  · intro tt st h
    obtain ⟨cur, rest⟩ := st
    obtain rfl : cur = none := h
    rfl
  · rfl

/-- C2 (witness): the general eat clause instantiated at eat SEMICOLON on
the empty cursor, together with the end-to-end run on "break". -/
theorem c2_eat_absent_token_attribute_error_witness :
    eat "SEMICOLON" ⟨none, []⟩ = .error (.attributeError "type") ∧
    parseSource "break" = .error (.attributeError "type") :=
  ⟨c2_eat_absent_token_attribute_error.1 "SEMICOLON" ⟨none, []⟩ rfl,
   c2_eat_absent_token_attribute_error.2⟩

/-- C3: whenever declaration dispatches on a CLASS lookahead it reaches
the class-declaration branch, which calls the nonexistent method
class_declaration and fails; consequently parse never returns a Program
for a token sequence whose first statement starts with CLASS. -/
theorem c3_class_dispatch_never_parses :
    (∀ (f : Nat) (st : St) (tok : Token), st.current = some tok →
      tok.type = "CLASS" →
      declaration (f + 1) st = .error (.attributeError "class_declaration")) ∧
    (∀ (v : TokenValue) (rest : List Token),
      parseTokens (⟨"CLASS", v⟩ :: rest) =
        .error (.attributeError "class_declaration")) := by
  constructor
  · intro f st tok hcur htype
    obtain ⟨cur, rest⟩ := st
    obtain rfl : cur = some tok := hcur
    obtain ⟨ty, v⟩ := tok
    obtain rfl : ty = "CLASS" := htype
    rfl
  · intro v rest
    rfl

/-- C3 (witness): the dispatch clause at a concrete CLASS token and the
parse clause on the one-token sequence [CLASS]. -/
theorem c3_class_dispatch_never_parses_witness :
    declaration 1 ⟨some ⟨"CLASS", .vStr "class"⟩, []⟩ =
      .error (.attributeError "class_declaration") ∧
    parseTokens [⟨"CLASS", .vStr "class"⟩] =
      .error (.attributeError "class_declaration") :=
  ⟨c3_class_dispatch_never_parses.1 0 ⟨some ⟨"CLASS", .vStr "class"⟩, []⟩
      ⟨"CLASS", .vStr "class"⟩ rfl rfl,
   c3_class_dispatch_never_parses.2 (.vStr "class") []⟩

/-- C4: for every source whose opening double quote is never closed, the
lexer emits a STRING token carrying exactly the characters accumulated up
to end of input and raises no error. -/
theorem c4_unterminated_string_lexes (cs : List Char) (h : '"' ∉ cs) :
    pyTokenize ('"' :: cs) = .ok [⟨"STRING", .vStr (String.mk cs)⟩] := by
  have h1 : cs.takeWhile (fun a => a != '"') = cs :=
    List.takeWhile_eq_self_iff.mpr (by
      intro x hx
      simp only [bne_iff_ne, ne_eq]
      exact fun e => h (e ▸ hx))
  have h2 : cs.dropWhile (fun a => a != '"') = [] :=
    List.dropWhile_eq_nil_iff.mpr (by
      intro x hx
      simp only [bne_iff_ne, ne_eq]
      exact fun e => h (e ▸ hx))
  have hstep : lexLoop (cs.length + 1) ('"' :: cs) =
      (lexLoop cs.length ((cs.dropWhile fun a => a != '"').tail)).map
        ((⟨"STRING", .vStr (String.mk (cs.takeWhile fun a => a != '"'))⟩ : Token) :: ·) :=
    rfl
  show lexLoop (cs.length + 1) ('"' :: cs) = _
  rw [hstep, h1, h2]
  simp [lexLoop_nil, Except.map]

/-- C4 (witness): the unterminated string source consisting of a quote
followed by ab. -/
theorem c4_unterminated_string_lexes_witness :
    ('"' ∉ ['a', 'b']) ∧
    pyTokenize ('"' :: ['a', 'b']) = .ok [⟨"STRING", .vStr (String.mk ['a', 'b'])⟩] :=
  ⟨by decide, c4_unterminated_string_lexes ['a', 'b'] (by decide)⟩

/-- C5 (counterexample): parsing the bare source "2 + 3 * 4" does not
return the BinaryOp tree: after the last NUMBER is consumed the
multiplicative loop guard dereferences the absent lookahead and the run
fails with AttributeError. -/
theorem c5_counterexample_bare_expression_crashes :
    parseSource "2 + 3 * 4" = .error (.attributeError "type") := rfl

/-- C5 (amended): in a context where a further token follows the
expression — here the initializer of "var x = 2 + 3 * 4;" — the
expression 2 + 3 * 4 parses to exactly
BinaryOp(ADD, Number 2, BinaryOp(MUL, Number 3, Number 4)), the
multiplicative level binding tighter than the additive level; the bare
source "2 + 3 * 4" instead fails with AttributeError at end of input
(see the counterexample). -/
theorem c5_mul_binds_tighter_in_context :
    parseSource "var x = 2 + 3 * 4;" =
      .ok (.program [.variableDeclaration (.vStr "x")
        (some (.binaryOp "ADD" (.number (.vNum 2))
          (.binaryOp "MUL" (.number (.vNum 3)) (.number (.vNum 4)))))]) := rfl

/-- C6: every nonempty all-digit source lexes to a single NUMBER token
whose value is the decimal interpretation of the whole digit string; the
accumulated value coincides with the standard positional interpretation
Nat.ofDigits of the digit list. -/
theorem c6_digit_run_single_number_token (cs : List Char) (h1 : cs ≠ [])
    (h2 : ∀ c ∈ cs, pyIsDigit c = true) :
    pyTokenize cs = .ok [⟨"NUMBER", .vNum (digitsToNat cs)⟩] ∧
    digitsToNat cs = Nat.ofDigits 10 ((cs.map fun c => c.toNat - 48)).reverse := by
  refine ⟨?_, digitsToNat_eq_ofDigits cs⟩
  obtain ⟨c, t, rfl⟩ : ∃ c t, cs = c :: t := by
    cases cs with
    | nil => exact absurd rfl h1
    | cons c t => exact ⟨c, t, rfl⟩
  have htw : (c :: t).takeWhile pyIsDigit = c :: t :=
    List.takeWhile_eq_self_iff.mpr h2
  have hdw : (c :: t).dropWhile pyIsDigit = [] :=
    List.dropWhile_eq_nil_iff.mpr h2
  show lexLoop (t.length + 1) (c :: t) = _
  rw [lexLoop_digit_step t.length c t (h2 c (by simp)), htw, hdw, lexLoop_nil]
  rfl

/-- C6 (witness): the two-digit source 42, whose NUMBER token carries the
value forty-two. -/
theorem c6_digit_run_single_number_token_witness :
    (['4', '2'] ≠ ([] : List Char)) ∧
    pyTokenize ['4', '2'] = .ok [⟨"NUMBER", .vNum (digitsToNat ['4', '2'])⟩] ∧
    digitsToNat ['4', '2'] = 42 :=
  ⟨by decide, (c6_digit_run_single_number_token ['4', '2'] (by decide) (by decide)).1,
   by decide⟩

/-- C7: parsing "var x 5;" fails with SyntaxError whose expected token
kind is SEMICOLON and whose actual token kind is NUMBER: the missing
ASSIGN leaves the initializer absent and the parser then demands the
terminator while the lookahead is the NUMBER 5. -/
theorem c7_var_missing_assign_syntax_error :
    parseSource "var x 5;" = .error (.syntaxError "SEMICOLON" "NUMBER") := rfl

/-- C8: for operands a, b, c and two operators of the same precedence
level (logical, relational, additive or multiplicative), the level's loop
folds left-associatively: a OP1 b OP2 c parses to
BinaryOp(OP2, BinaryOp(OP1, a, b), c), with the previously built node as
the left child.  A SEMICOLON token follows the expression, as in any
context in which the expression parser returns (the loop guards
dereference the lookahead). -/
theorem c8_same_level_left_assoc (t1 t2 : String) (v1 v2 va vb vc : TokenValue)
    (h : (inLogicalOps t1 = true ∧ inLogicalOps t2 = true) ∨
         (inRelationalOps t1 = true ∧ inRelationalOps t2 = true) ∨
         (inAdditiveOps t1 = true ∧ inAdditiveOps t2 = true) ∨
         (inMultiplicativeOps t1 = true ∧ inMultiplicativeOps t2 = true)) :
    runExpression [⟨"NUMBER", va⟩, ⟨t1, v1⟩, ⟨"NUMBER", vb⟩, ⟨t2, v2⟩,
        ⟨"NUMBER", vc⟩, ⟨"SEMICOLON", .vStr ";"⟩] =
      .ok (.binaryOp t2 (.binaryOp t1 (.number va) (.number vb)) (.number vc)) := by
  rcases h with ⟨h1, h2⟩ | ⟨h1, h2⟩ | ⟨h1, h2⟩ | ⟨h1, h2⟩
  · simp only [inLogicalOps, Bool.or_eq_true, beq_iff_eq] at h1 h2
    rcases h1 with rfl | rfl <;> rcases h2 with rfl | rfl <;> rfl
  · simp only [inRelationalOps, Bool.or_eq_true, beq_iff_eq] at h1 h2
    rcases h1 with ((((rfl | rfl) | rfl) | rfl) | rfl) | rfl <;>
      rcases h2 with ((((rfl | rfl) | rfl) | rfl) | rfl) | rfl <;> rfl
  · simp only [inAdditiveOps, Bool.or_eq_true, beq_iff_eq] at h1 h2
    rcases h1 with rfl | rfl <;> rcases h2 with rfl | rfl <;> rfl
  · simp only [inMultiplicativeOps, Bool.or_eq_true, beq_iff_eq] at h1 h2
    rcases h1 with (rfl | rfl) | rfl <;> rcases h2 with (rfl | rfl) | rfl <;> rfl

/-- C8 (witness): 8 * 3 / 2 folds to BinaryOp(DIV, BinaryOp(MUL, 8, 3), 2). -/
theorem c8_same_level_left_assoc_witness :
    (inMultiplicativeOps "MUL" = true ∧ inMultiplicativeOps "DIV" = true) ∧
    runExpression [⟨"NUMBER", .vNum 8⟩, ⟨"MUL", .vStr "*"⟩, ⟨"NUMBER", .vNum 3⟩,
        ⟨"DIV", .vStr "/"⟩, ⟨"NUMBER", .vNum 2⟩, ⟨"SEMICOLON", .vStr ";"⟩] =
      .ok (.binaryOp "DIV"
        (.binaryOp "MUL" (.number (.vNum 8)) (.number (.vNum 3)))
        (.number (.vNum 2))) :=
  ⟨⟨by decide, by decide⟩,
   c8_same_level_left_assoc "MUL" "DIV" (.vStr "*") (.vStr "/")
     (.vNum 8) (.vNum 3) (.vNum 2)
     (Or.inr (Or.inr (Or.inr ⟨by decide, by decide⟩)))⟩

/-- C9: an empty token sequence parses to a Program with no declarations
and no error, and an empty or all-whitespace source produces exactly such
an empty token sequence. -/
theorem c9_empty_input_empty_program :
    (∀ cs : List Char, (∀ c ∈ cs, pyIsSpace c = true) → pyTokenize cs = .ok []) ∧
    parseTokens [] = .ok (.program []) := by
  constructor
  · intro cs h
    exact lexLoop_all_space cs cs.length h le_rfl
  · rfl

/-- C9 (witness): a space-and-newline source lexes to no tokens, and the
empty token sequence parses to the empty Program. -/
theorem c9_empty_input_empty_program_witness :
    pyTokenize [' ', '\n'] = .ok [] ∧ parseTokens [] = .ok (.program []) :=
  ⟨c9_empty_input_empty_program.1 [' ', '\n'] (by decide),
   c9_empty_input_empty_program.2⟩

/-- C10: the identifier runs and and or lex to Token(AND, "&&") and
Token(OR, "||"), and every other identifier run — keyword or not —
carries its raw lexeme as the token value. -/
theorem c10_and_or_only_value_rewrite :
    tokenize "and" = .ok [⟨"AND", .vStr "&&"⟩] ∧
    tokenize "or" = .ok [⟨"OR", .vStr "||"⟩] ∧
    ∀ s : String, s ≠ "and" → s ≠ "or" → (keywordToken s).value = .vStr s := by
  refine ⟨rfl, rfl, ?_⟩
  intro s h1 h2
  by_cases q1 : s = "var"
  · subst q1; rfl
  by_cases q2 : s = "function"
  · subst q2; rfl
  by_cases q3 : s = "return"
  · subst q3; rfl
  by_cases q4 : s = "if"
  · subst q4; rfl
  by_cases q5 : s = "else"
  · subst q5; rfl
  by_cases q6 : s = "while"
  · subst q6; rfl
  by_cases q7 : s = "for"
  · subst q7; rfl
  by_cases q8 : s = "break"
  · subst q8; rfl
  by_cases q9 : s = "continue"
  · subst q9; rfl
  by_cases q10 : s = "class"
  · subst q10; rfl
  rw [keywordToken, if_neg q1, if_neg q2, if_neg q3, if_neg q4, if_neg q5,
    if_neg q6, if_neg q7, if_neg q8, if_neg q9, if_neg q10, if_neg h1, if_neg h2]

/-- C10 (witness): the keyword var and the plain identifier foo both keep
their raw lexeme as value. -/
theorem c10_and_or_only_value_rewrite_witness :
    tokenize "and" = .ok [⟨"AND", .vStr "&&"⟩] ∧
    (keywordToken "var").value = .vStr "var" ∧
    (keywordToken "foo").value = .vStr "foo" :=
  ⟨c10_and_or_only_value_rewrite.1,
   c10_and_or_only_value_rewrite.2.2 "var" (by decide) (by decide),
   c10_and_or_only_value_rewrite.2.2 "foo" (by decide) (by decide)⟩

end MiniLang
